import Mathlib

/-!
Shallow embedding of `src/src/lib.rs` (selection-text-aware): a low-level
mouse hook that classifies press/release pairs by elapsed time and, on a
qualifying release, spawns a worker that queries UI Automation for the
selected text of the focused element.

Modelling conventions:
- `MOUSE_DOWN_TIME` (an `AtomicU64`, 0 = no press) is threaded explicitly as
  the `st : Nat` argument/field; `u64` arithmetic is `Nat` (the only
  subtraction in the source is `saturating_sub`, which is `Nat` subtraction).
- The observable effects of each hook callback invocation are collected in
  `HookResult`: the new value of the shared timestamp, the spawned detection
  worker (with the duration it carries), and how many times the event was
  forwarded with `CallNextHookEx`.
- Fallible Win32/COM/UIA calls are abstracted as `Except Unit _` fields of an
  environment record; the Rust `?` operator is bind in the `Except` monad.
-/

/-- The constant `SELECTION_THRESHOLD_MS` from the source: the drag threshold in ms. -/
def SELECTION_THRESHOLD_MS : Nat := 200

/-- Win32 message code for primary-button-down (0x0201). -/
def WM_LBUTTONDOWN : Nat := 0x0201

/-- Win32 message code for primary-button-up (0x0202). -/
def WM_LBUTTONUP : Nat := 0x0202

/-- Win32 message code for mouse-move (0x0200), used as a "other message"
sample input. -/
def WM_MOUSEMOVE : Nat := 0x0200

/-- Observable effects of one invocation of the hook callback. -/
structure HookResult where
  /-- Value of `MOUSE_DOWN_TIME` after the invocation. -/
  state : Nat
  /-- Equals `some d` iff a detection worker was spawned, carrying duration `d`. -/
  spawned : Option Nat
  /-- Number of `CallNextHookEx` calls made by this invocation. -/
  nextHookCalls : Nat
deriving DecidableEq, Repr

/-- Line 52 of the source: `now.saturating_sub(start_time)` on `u64`, which
is exactly truncated subtraction on `Nat`. -/
def gestureDuration (now start_time : Nat) : Nat := now - start_time

/-- Shallow embedding of `mouse_hook_proc` (src/src/lib.rs:27-71).
`code`, `msg` (= `wparam as u32`) and the clock reading `now` are the
inputs of the invocation; `st` is the value of `MOUSE_DOWN_TIME` on entry. -/
def mouse_hook_proc (code : Int) (msg : Nat) (now : Nat) (st : Nat) : HookResult :=
  let inner : Nat × Option Nat :=
    if 0 ≤ code then
      if msg = WM_LBUTTONDOWN then
        -- store the press timestamp
        (now, none)
      else if msg = WM_LBUTTONUP then
        -- `MOUSE_DOWN_TIME.swap(0)`: read the old value, write 0
        let start_time := st
        if 0 < start_time then
          let duration := gestureDuration now start_time
          if SELECTION_THRESHOLD_MS ≤ duration then
            (0, some duration)
          else
            (0, none)
        else
          (0, none)
      else
        (st, none)
    else
      (st, none)
  -- `CallNextHookEx` is reached on every path, exactly once
  { state := inner.1, spawned := inner.2, nextHookCalls := 1 }

/-- One system pointer event as seen by the hook: the hook code, the message
and the clock reading at handling time. -/
structure MouseEvent where
  code : Int
  msg : Nat
  now : Nat
deriving DecidableEq, Repr

/-- Run the hook callback over a sequence of events, threading the shared
`MOUSE_DOWN_TIME` slot; returns the final slot value and the list of
durations of all spawned detection workers, in order. -/
def runHook (st : Nat) : List MouseEvent → Nat × List Nat
  | [] => (st, [])
  | e :: rest =>
    let r := mouse_hook_proc e.code e.msg e.now st
    let tail := runHook r.state rest
    (tail.1, r.spawned.toList ++ tail.2)

/-- A button-up handled from the empty slot does nothing: slot stays 0,
nothing spawned, event still forwarded once. -/
theorem mouse_hook_proc_up_zero (code : Int) (now : Nat) :
    mouse_hook_proc code WM_LBUTTONUP now 0 =
      { state := 0, spawned := none, nextHookCalls := 1 } := by
  unfold mouse_hook_proc
  split <;> simp [WM_LBUTTONUP, WM_LBUTTONDOWN]

/-- From the empty slot, a run consisting only of button-up events spawns
nothing and leaves the slot empty. -/
theorem runHook_ups_from_zero (evs : List MouseEvent)
    (h : ∀ e ∈ evs, e.msg = WM_LBUTTONUP) :
    runHook 0 evs = (0, []) := by
  induction evs with
  | nil => rfl
  | cons e rest ih =>
    have hmsg := h e (by simp)
    have hrest : ∀ x ∈ rest, x.msg = WM_LBUTTONUP := fun x hx => h x (by simp [hx])
    simp only [runHook, hmsg, mouse_hook_proc_up_zero, ih hrest]
    rfl

/-- From any slot value, a run consisting only of button-up events spawns at
most one detection worker. -/
theorem runHook_ups_at_most_one (evs : List MouseEvent) (st : Nat)
    (h : ∀ e ∈ evs, e.msg = WM_LBUTTONUP) :
    (runHook st evs).2.length ≤ 1 := by
  induction evs generalizing st with
  | nil => simp [runHook]
  | cons e rest ih =>
    have hmsg := h e (by simp)
    have hrest : ∀ x ∈ rest, x.msg = WM_LBUTTONUP := fun x hx => h x (by simp [hx])
    by_cases hc : 0 ≤ e.code
    · -- a handled up: slot drained to 0, at most one spawn here, none later
      have hzero := runHook_ups_from_zero rest hrest
      simp only [runHook, hmsg]
      unfold mouse_hook_proc
      simp only [hc, if_pos, WM_LBUTTONUP, WM_LBUTTONDOWN]
      norm_num
      split
      · split <;> simp [hzero]
      · simp [hzero]
    · -- an up not for this hook: slot untouched, no spawn
      simp only [runHook]
      unfold mouse_hook_proc
      simp only [if_neg hc]
      simpa using ih st hrest

/-- C1: for a press/release pair handled by the hook (code ≥ 0, button-up,
nonzero recorded press), a detection worker is spawned iff the measured gap
`now - st` is at least 200 ms (inclusive threshold), and it carries that
gap as its duration. -/
theorem c1_threshold_inclusive (code : Int) (now st : Nat)
    (hc : 0 ≤ code) (hst : 0 < st) :
    (mouse_hook_proc code WM_LBUTTONUP now st).spawned =
      if SELECTION_THRESHOLD_MS ≤ now - st then some (now - st) else none := by
  unfold mouse_hook_proc
  simp only [hc, if_pos, hst, WM_LBUTTONUP, WM_LBUTTONDOWN, gestureDuration]
  norm_num
  split <;> simp

/-- C1 witness: at the boundary gap of exactly 200 ms (press at 100, release
at 300) a worker is spawned with duration 200. -/
theorem c1_threshold_inclusive_witness :
    (0 : Int) ≤ 0 ∧ 0 < 100 ∧
      (mouse_hook_proc 0 WM_LBUTTONUP 300 100).spawned = some 200 := by
  refine ⟨le_refl 0, by norm_num, ?_⟩
  have h := c1_threshold_inclusive 0 300 100 (le_refl 0) (by norm_num)
  simpa [SELECTION_THRESHOLD_MS] using h

/-- C2: every invocation of the hook callback forwards the event exactly once
(`CallNextHookEx` count is 1) on every path; and an event with `code < 0` is
passed through with the shared slot unchanged and no worker spawned. -/
theorem c2_always_forwards (code : Int) (msg now st : Nat) :
    (mouse_hook_proc code msg now st).nextHookCalls = 1 ∧
      (code < 0 →
        (mouse_hook_proc code msg now st).state = st ∧
          (mouse_hook_proc code msg now st).spawned = none) := by
  constructor
  · rfl
  · intro hneg
    have hc : ¬ (0 ≤ code) := not_le.mpr hneg
    unfold mouse_hook_proc
    simp [hc]

/-- C2 witness: a negative-code button-up with a pending press is forwarded
once, leaves the slot at 7 and spawns nothing. -/
theorem c2_always_forwards_witness :
    (mouse_hook_proc (-1) WM_LBUTTONUP 500 7).nextHookCalls = 1 ∧
      (mouse_hook_proc (-1) WM_LBUTTONUP 500 7).state = 7 ∧
      (mouse_hook_proc (-1) WM_LBUTTONUP 500 7).spawned = none := by
  have h := c2_always_forwards (-1) WM_LBUTTONUP 500 7
  exact ⟨h.1, (h.2 (by norm_num)).1, (h.2 (by norm_num)).2⟩

/-- C4: one recorded press (any slot value, via a button-down event) followed
by any number of button-up events spawns at most one detection worker: the
swap drains the slot, so later releases see it empty. -/
theorem c4_at_most_one_detection (pcode : Int) (pnow st : Nat)
    (ups : List MouseEvent) (h : ∀ e ∈ ups, e.msg = WM_LBUTTONUP) :
    (runHook st ({ code := pcode, msg := WM_LBUTTONDOWN, now := pnow } :: ups)).2.length ≤ 1 := by
  simp only [runHook]
  unfold mouse_hook_proc
  by_cases hc : (0 : Int) ≤ pcode
  · simpa [hc] using runHook_ups_at_most_one ups pnow h
  · simpa [hc] using runHook_ups_at_most_one ups st h

/-- C4 witness: press at t=0 then two releases (t=300, t=400) dispatch at
most one worker. -/
theorem c4_at_most_one_detection_witness :
    (∀ e ∈ [({ code := 0, msg := WM_LBUTTONUP, now := 300 } : MouseEvent),
            { code := 0, msg := WM_LBUTTONUP, now := 400 }], e.msg = WM_LBUTTONUP) ∧
    (runHook 0 ({ code := 0, msg := WM_LBUTTONDOWN, now := 0 } ::
      [({ code := 0, msg := WM_LBUTTONUP, now := 300 } : MouseEvent),
       { code := 0, msg := WM_LBUTTONUP, now := 400 }])).2.length ≤ 1 := by
  refine ⟨by decide, ?_⟩
  exact c4_at_most_one_detection 0 0 0 _ (by decide)

/-- C8: a button-up arriving with the shared slot empty (0) is a no-op: the
slot stays 0, no worker is spawned, and the callback still forwards the event
exactly once. -/
theorem c8_up_without_press_noop (code : Int) (now : Nat) :
    mouse_hook_proc code WM_LBUTTONUP now 0 =
      { state := 0, spawned := none, nextHookCalls := 1 } :=
  mouse_hook_proc_up_zero code now

/-- C9: the gesture duration is `u64` saturating subtraction: whenever the
stored press timestamp exceeds the release-time clock reading, the computed
duration is 0 and no detection worker is spawned. -/
theorem c9_saturating_duration (code : Int) (now st : Nat)
    (hc : 0 ≤ code) (hskew : now < st) :
    gestureDuration now st = 0 ∧
      (mouse_hook_proc code WM_LBUTTONUP now st).spawned = none := by
  have hdur : gestureDuration now st = 0 := Nat.sub_eq_zero_of_le (le_of_lt hskew)
  refine ⟨hdur, ?_⟩
  have hst : 0 < st := Nat.pos_of_ne_zero (by omega)
  rw [c1_threshold_inclusive code now st hc hst]
  have : now - st = 0 := hdur
  simp [this, SELECTION_THRESHOLD_MS]

/-- C9 witness: press recorded at 1000, clock reads 500 at release: duration
is 0 and nothing is spawned. -/
theorem c9_saturating_duration_witness :
    (0 : Int) ≤ 0 ∧ (500 : Nat) < 1000 ∧
      gestureDuration 500 1000 = 0 ∧
      (mouse_hook_proc 0 WM_LBUTTONUP 500 1000).spawned = none := by
  have h := c9_saturating_duration 0 500 1000 (le_refl 0) (by norm_num)
  exact ⟨le_refl 0, by norm_num, h.1, h.2⟩

/-- C10: any message other than button-down and button-up leaves the shared
slot unchanged and spawns no worker. -/
theorem c10_other_messages_frame (code : Int) (msg now st : Nat)
    (hdown : msg ≠ WM_LBUTTONDOWN) (hup : msg ≠ WM_LBUTTONUP) :
    (mouse_hook_proc code msg now st).state = st ∧
      (mouse_hook_proc code msg now st).spawned = none := by
  unfold mouse_hook_proc
  split
  · simp [hdown, hup]
  · simp

/-- C10 witness: a mouse-move with a pending press at 7 leaves the slot at 7
and spawns nothing. -/
theorem c10_other_messages_frame_witness :
    (WM_MOUSEMOVE ≠ WM_LBUTTONDOWN ∧ WM_MOUSEMOVE ≠ WM_LBUTTONUP) ∧
      (mouse_hook_proc 0 WM_MOUSEMOVE 1000 7).state = 7 ∧
      (mouse_hook_proc 0 WM_MOUSEMOVE 1000 7).spawned = none := by
  refine ⟨⟨by decide, by decide⟩, ?_⟩
  exact c10_other_messages_frame 0 WM_MOUSEMOVE 1000 7 (by decide) (by decide)

/-!
Selection extraction (`get_focused_selection`, `perform_uia_detection`).
Each fallible UIA/COM call of the source is a field of `UIAEnv`; the Rust
`?` operator is bind in the `Except Unit` monad.
-/

/-- Abstract outcome environment for the UIA calls made by
`get_focused_selection`: one field per fallible call site, in source order. -/
structure UIAEnv where
  /-- Outcome of `CoCreateInstance(&CUIAutomation, ...)?` -/
  coCreateInstance : Except Unit Unit
  /-- Outcome of `uia.GetFocusedElement()?` -/
  getFocusedElement : Except Unit Unit
  /-- Outcome of `focused_element.GetCurrentPattern(UIA_TextPatternId)?` -/
  getCurrentPattern : Except Unit Unit
  /-- Outcome of `pattern_obj.cast::<IUIAutomationTextPattern>()` (handled by `match`) -/
  castTextPattern : Except Unit Unit
  /-- Outcome of `text_pattern.GetSelection()?` -/
  getSelection : Except Unit Unit
  /-- Outcome of `selection_ranges.Length()?` (an `i32`) -/
  rangesLength : Except Unit Int
  /-- Outcome of `selection_ranges.GetElement(i)?` -/
  getElement : Int → Except Unit Unit
  /-- Outcome of `range.GetText(-1)?` for the range at index `i` -/
  getText : Int → Except Unit String

/-- The `for i in 0..count` accumulation loop of `get_focused_selection`:
fetch each range, append its full text to the accumulator, in order. -/
def appendRanges (env : UIAEnv) : List Int → String → Except Unit String
  | [], acc => .ok acc
  | i :: rest, acc => do
    let _ ← env.getElement i
    let t ← env.getText i
    appendRanges env rest (acc ++ t)

/-- Shallow embedding of `get_focused_selection` (src/src/lib.rs:106-134).
A failed cast to the text pattern and a zero range count return `Ok("")`;
every `?` call site propagates its error. `0..count` on `i32` iterates
`count.toNat` times (none when `count ≤ 0`). -/
def get_focused_selection (env : UIAEnv) : Except Unit String := do
  let _ ← env.coCreateInstance
  let _ ← env.getFocusedElement
  let _ ← env.getCurrentPattern
  match env.castTextPattern with
  | .error _ => return ""
  | .ok _ =>
    let _ ← env.getSelection
    let count ← env.rangesLength
    if count = 0 then
      return ""
    else
      appendRanges env ((List.range count.toNat).map Int.ofNat) ""

/-- The separator line printed around a detection. -/
def separatorLine : String := "--------------------------------------------------"

/-- The Rust function `str::trim` (used as `text.trim()` in the source), modelled on
the character list: drop leading and trailing whitespace, keeping the middle
untouched. -/
def rustTrim (s : String) : String :=
  ⟨((s.data.dropWhile Char.isWhitespace).reverse.dropWhile Char.isWhitespace).reverse⟩

/-- Shallow embedding of `perform_uia_detection` (src/src/lib.rs:76-103),
returning the list of stdout lines it prints. `coInitOk` is the outcome of
`CoInitializeEx` (on failure the worker returns at once); an `Err` from
`get_focused_selection` is swallowed; a result that trims to empty prints
nothing. -/
def perform_uia_detection (coInitOk : Bool) (env : UIAEnv) (duration_ms : Nat) :
    List String :=
  if ¬ coInitOk then []
  else
    match get_focused_selection env with
    | .ok text =>
      if ¬ (rustTrim text).isEmpty then
        [separatorLine,
         "检测到长按/拖拽 (" ++ toString duration_ms ++ "ms) 结束，捕获文本:",
         ">>> " ++ text,
         separatorLine]
      else []
    | .error _ => []

/-- Environment in which every UIA call succeeds and the selection consists
of `ts.length` ranges whose texts are the entries of `ts`, in order. -/
def mkRangesEnv (ts : List String) : UIAEnv where
  coCreateInstance := .ok ()
  getFocusedElement := .ok ()
  getCurrentPattern := .ok ()
  castTextPattern := .ok ()
  getSelection := .ok ()
  rangesLength := .ok (ts.length : Int)
  getElement := fun _ => .ok ()
  getText := fun i => .ok (ts.getD i.toNat "")

/-- Environment with a single all-whitespace (or otherwise given) selected
text `t`. -/
def mkTextEnv (t : String) : UIAEnv := mkRangesEnv [t]

theorem string_foldl_append (l : List String) (a b : String) :
    List.foldl (fun r s => r ++ s) (a ++ b) l =
      a ++ List.foldl (fun r s => r ++ s) b l := by
  induction l generalizing b with
  | nil => rfl
  | cons x xs ih =>
    simp only [List.foldl_cons, String.append_assoc]
    exact ih (b ++ x)

theorem string_join_cons (x : String) (l : List String) :
    String.join (x :: l) = x ++ String.join l := by
  simp only [String.join, List.foldl_cons, String.empty_append]
  calc List.foldl (fun r s => r ++ s) x l
      = List.foldl (fun r s => r ++ s) (x ++ "") l := by rw [String.append_empty]
    _ = x ++ List.foldl (fun r s => r ++ s) "" l := string_foldl_append l x ""

theorem appendRanges_mkRangesEnv (ts : List String) (is : List Int) (acc : String) :
    appendRanges (mkRangesEnv ts) is acc =
      .ok (acc ++ String.join (is.map (fun i => ts.getD i.toNat ""))) := by
  induction is generalizing acc with
  | nil => simp [appendRanges, String.join, String.append_empty]
  | cons i rest ih =>
    have step : appendRanges (mkRangesEnv ts) (i :: rest) acc =
        appendRanges (mkRangesEnv ts) rest (acc ++ ts.getD i.toNat "") := rfl
    rw [step, ih, List.map_cons, string_join_cons, String.append_assoc]

theorem map_range_getD (ts : List String) :
    (List.range ts.length).map (fun i => ts.getD i "") = ts := by
  apply List.ext_getElem
  · simp
  · intro i h1 h2
    simp only [List.getElem_map, List.getElem_range, List.getD_eq_getElem?_getD,
      List.getElem?_eq_getElem h2, Option.getD_some]

theorem except_bind_ok {α β ε : Type} (a : α) (f : α → Except ε β) :
    ((Except.ok a : Except ε α) >>= f) = f a := rfl

theorem get_focused_selection_mkRangesEnv (ts : List String) :
    get_focused_selection (mkRangesEnv ts) = .ok (String.join ts) := by
  by_cases h : ts = []
  · subst h; rfl
  · have hlen : ((ts.length : Int)) ≠ 0 := by
      simp [List.length_eq_zero, h]
    show (if ((ts.length : Int)) = 0 then Except.ok ""
          else appendRanges (mkRangesEnv ts)
            ((List.range ((ts.length : Int)).toNat).map Int.ofNat) "") =
        Except.ok (String.join ts)
    rw [if_neg hlen, appendRanges_mkRangesEnv, String.empty_append, List.map_map]
    have hcomp : ((fun i : Int => ts.getD i.toNat "") ∘ Int.ofNat) =
        (fun k : Nat => ts.getD k "") := by
      funext k
      simp
    rw [hcomp, Int.toNat_ofNat, map_range_getD]

/-- C7: for every sequence of selection ranges (texts `ts`, all platform
calls succeeding), the extractor returns the concatenation of the range
texts in enumeration order with no separator (`String.join`); in particular
ranges `["ab", "cd"]` yield `"abcd"`. -/
theorem c7_concat_in_order_no_separator (ts : List String) :
    get_focused_selection (mkRangesEnv ts) = .ok (String.join ts) :=
  get_focused_selection_mkRangesEnv ts

/-- C6: for a whitespace-only (or empty) selected text `t`, extraction still
returns the literal string `t` unmodified, while the output stage prints no
line at all. -/
theorem c6_whitespace_only_no_output (t : String) (d : Nat)
    (hws : (rustTrim t).isEmpty = true) :
    get_focused_selection (mkTextEnv t) = .ok t ∧
      perform_uia_detection true (mkTextEnv t) d = [] := by
  have hext : get_focused_selection (mkTextEnv t) = .ok t := by
    have h := get_focused_selection_mkRangesEnv [t]
    rwa [show String.join [t] = "" ++ t from rfl, String.empty_append] at h
  refine ⟨hext, ?_⟩
  simp [perform_uia_detection, hext, hws]

/-- C6 witness: the single-space selection is returned literally by the
extractor and produces no output line. -/
theorem c6_whitespace_only_no_output_witness :
    (rustTrim " ").isEmpty = true ∧
      get_focused_selection (mkTextEnv " ") = .ok " " ∧
      perform_uia_detection true (mkTextEnv " ") 250 = [] := by
  have h := c6_whitespace_only_no_output " " 250 (by decide)
  exact ⟨by decide, h.1, h.2⟩

/-- Environment in which `GetFocusedElement` fails (no focused element) and
every other call would succeed with no ranges. -/
def noFocusEnv : UIAEnv := { mkRangesEnv [] with getFocusedElement := .error () }

/-- C3 counterexample: when the focused element is absent (`GetFocusedElement`
fails), `get_focused_selection` propagates the error through `?` and returns
`Err`, not the empty string the claim promises. -/
theorem c3_counterexample_focus_absent_is_error :
    noFocusEnv.getFocusedElement = .error () ∧
      get_focused_selection noFocusEnv = .error () ∧
      get_focused_selection noFocusEnv ≠ .ok "" := by
  refine ⟨rfl, rfl, ?_⟩
  intro h
  exact Except.noConfusion h

/-- C3 (amended): the extractor returns `Ok("")` when the focused element
lacks the text-selection pattern (the cast fails) and when the selection
range count is zero; when the focused element is absent it instead returns an
error, which its only caller `perform_uia_detection` swallows silently (no
output, nothing raised further). -/
theorem c3_empty_string_and_swallowed_error_paths (env : UIAEnv) (d : Nat) :
    get_focused_selection { env with
      coCreateInstance := .ok (),
      getFocusedElement := .ok (),
      getCurrentPattern := .ok (),
      castTextPattern := .error () } = .ok "" ∧
    get_focused_selection { env with
      coCreateInstance := .ok (),
      getFocusedElement := .ok (),
      getCurrentPattern := .ok (),
      castTextPattern := .ok (),
      getSelection := .ok (),
      rangesLength := .ok 0 } = .ok "" ∧
    get_focused_selection { env with
      coCreateInstance := .ok (),
      getFocusedElement := .error () } = .error () ∧
    perform_uia_detection true { env with
      coCreateInstance := .ok (),
      getFocusedElement := .error () } d = [] := by
  exact ⟨rfl, rfl, rfl, rfl⟩

/-!
Start operation (`selection_initialize`, src/src/lib.rs:136-169).
-/

/-- The hook handle returned by `SetWindowsHookExW`: only its
`is_invalid()` test matters to the source. -/
structure HookId where
  isInvalid : Bool
deriving DecidableEq, Repr

/-- Outcomes of the platform calls made by the start operation. -/
structure InitEnv where
  /-- Outcome of `GetModuleHandleW(None)?` -/
  getModuleHandle : Except Unit Unit
  /-- Outcome of `SetWindowsHookExW(WH_MOUSE_LL, ...)?` -/
  setWindowsHook : Except Unit HookId
  /-- how many times `GetMessageW` returns a message before signalling quit -/
  messageCount : Nat

/-- Observable effects of the start operation. -/
structure InitResult where
  /-- the `Result<()>` returned to the caller -/
  ret : Except Unit Unit
  /-- stderr lines (`eprintln!`) -/
  errLines : List String
  /-- stdout lines (`println!`) -/
  outLines : List String
  /-- iterations of the message loop that ran -/
  loopIterations : Nat
  /-- whether `UnhookWindowsHookEx` was reached -/
  unhooked : Bool
deriving Repr

/-- Shallow embedding of `selection_initialize` (src/src/lib.rs:136-169):
`?` failures of `GetModuleHandleW` / `SetWindowsHookExW` propagate; an
invalid hook handle is logged to stderr and the function returns `Ok(())`
without running the message loop; otherwise the banner is printed, the
message loop runs, the hook is removed and `Ok(())` is returned. -/
def selection_initialize (env : InitEnv) : InitResult :=
  match env.getModuleHandle with
  | .error e => { ret := .error e, errLines := [], outLines := [],
                  loopIterations := 0, unhooked := false }
  | .ok _ =>
    match env.setWindowsHook with
    | .error e => { ret := .error e, errLines := [], outLines := [],
                    loopIterations := 0, unhooked := false }
    | .ok hook_id =>
      if hook_id.isInvalid then
        { ret := .ok (), errLines := ["无法安装鼠标钩子！"], outLines := [],
          loopIterations := 0, unhooked := false }
      else
        { ret := .ok (),
          errLines := [],
          outLines := ["系统监控已启动...",
                       "请尝试：按住鼠标左键 -> 拖拽选中文字 -> 松开鼠标",
                       "(短按点击不会触发)"],
          loopIterations := env.messageCount,
          unhooked := true }

/-- C5: when hook installation reports an invalid handle, the start
operation logs the failure to stderr and returns `Ok(())` — success — without
running the message loop. -/
theorem c5_invalid_hook_returns_ok (env : InitEnv) (h : HookId)
    (hmod : env.getModuleHandle = .ok ())
    (hhook : env.setWindowsHook = .ok h)
    (hinv : h.isInvalid = true) :
    ( selection_initialize env).ret = .ok () ∧
      ( selection_initialize env).errLines = ["无法安装鼠标钩子！"] ∧
      ( selection_initialize env).loopIterations = 0 := by
  unfold selection_initialize
  rw [hmod, hhook]
  simp [hinv]

/-- The concrete start-operation environment used in the C5 witness: module
handle available, hook installation reporting an invalid handle. -/
def invalidHookEnv : InitEnv where
  getModuleHandle := .ok ()
  setWindowsHook := .ok { isInvalid := true }
  messageCount := 5

/-- C5 witness: with module handle available and an invalid hook handle
reported, the start operation returns `Ok`, logs, and runs zero loop
iterations. -/
theorem c5_invalid_hook_returns_ok_witness :
    ( selection_initialize invalidHookEnv).ret = .ok () ∧
      ( selection_initialize invalidHookEnv).errLines = ["无法安装鼠标钩子！"] ∧
      ( selection_initialize invalidHookEnv).loopIterations = 0 :=
  c5_invalid_hook_returns_ok invalidHookEnv { isInvalid := true } rfl rfl rfl
